import Mathlib

/-!
# Script binding of the drawing context (`app/script/graphics_context.cpp`)

A shallow embedding of the Lua binding of `app::script::GraphicsContext`.

* A Lua call frame is the list of its stack slots, index 1 first.
* The drawing surface, the text renderer, the image converter and the skin
  theme are library objects.  Every call the binding makes to them is
  recorded, with its arguments, in a list of `Call`s; the content of the
  surface is determined by the calls that target it.
* `int` is a 32-bit two's complement integer (`toInt`) and `lua_Integer` is
  an `Int`.
* `lua_Number` (binary64) and `float` (binary32) values are IEEE 754 values
  (`FloatVal`): a rational, negative zero, an infinity or NaN.  The
  conversions `lua_Integer` to `lua_Number` (`toDouble`) and `lua_Number` to
  `float` (`toFloat`) round to nearest, ties to even.
* A `const char*` read as a `std::string` ends at its first NUL
  (`std_string`).
* Services of the host application that the binding calls but that live in
  other files are fields of `Host`.
-/

namespace app.script

/-! ## Geometry and paint -/

/-- The type `gfx::Point`. -/
structure Point where
  x : Int
  y : Int
deriving DecidableEq, Repr

/-- The type `gfx::Size`. -/
structure Size where
  w : Int
  h : Int
deriving DecidableEq, Repr

/-- The type `gfx::Rect`. -/
structure Rect where
  x : Int
  y : Int
  w : Int
  h : Int
deriving DecidableEq, Repr

/-- The method `gfx::Rect::size()`. -/
def Rect.size (rc : Rect) : Size := ⟨rc.w, rc.h⟩

/-! ## Floating point values -/

/-- An IEEE 754 value: a finite rational (`fin 0` is positive zero), negative
zero, an infinity with its sign, or NaN. -/
inductive FloatVal
  | fin (q : Rat)
  | negZero
  | inf (negative : Bool)
  | nan
deriving DecidableEq

/-- The quotient `n / d` rounded to the nearest natural number, ties to even. -/
def roundHalfEven (n d : Nat) : Nat :=
  if 2 * (n % d) < d then n / d
  else if d < 2 * (n % d) then n / d + 1
  else if (n / d) % 2 = 0 then n / d
  else n / d + 1

/-- Binary logarithm by halving, with `fuel` steps at most. -/
def log2Aux : Nat → Nat → Nat
  | 0, _ => 0
  | fuel + 1, n => if n < 2 then 0 else log2Aux fuel (n / 2) + 1

/-- The binary logarithm of a positive natural number, rounded down. -/
def ilog2 (n : Nat) : Nat := log2Aux n n

/-- The binary logarithm of the positive fraction `n / d`, rounded down. -/
def floorLog2 (n d : Nat) : Int :=
  if d * 2 ^ ((ilog2 n : Int) - (ilog2 d : Int)).toNat
      ≤ n * 2 ^ ((ilog2 d : Int) - (ilog2 n : Int)).toNat
  then (ilog2 n : Int) - (ilog2 d : Int)
  else (ilog2 n : Int) - (ilog2 d : Int) - 1

/-- The integer significand of `n / d` in a binary format with `prec` bits of
precision and least exponent `emin`. -/
def significand (prec : Nat) (emin : Int) (n d : Nat) : Nat :=
  roundHalfEven (n * 2 ^ ((prec : Int) - 1 - max (floorLog2 n d) emin).toNat)
    (d * 2 ^ (max (floorLog2 n d) emin - ((prec : Int) - 1)).toNat)

/-- Rounding of a rational to the binary format with `prec` bits of precision
and exponent range `emin .. emax`: to nearest, ties to even, with gradual
underflow, and overflow to infinity. -/
def roundBinary (prec : Nat) (emin emax : Int) (q : Rat) : FloatVal :=
  if q.num = 0 then .fin 0
  else
    let sh : Int := max (floorLog2 q.num.natAbs q.den) emin - ((prec : Int) - 1)
    let k := significand prec emin q.num.natAbs q.den
    if k = 0 then (if q.num < 0 then .negZero else .fin 0)
    else if emax + 1 ≤ (ilog2 k : Int) + sh then .inf (decide (q.num < 0))
    else .fin (mkRat (Int.sign q.num * (k * 2 ^ sh.toNat : Nat)) (2 ^ (-sh).toNat))

/-- Conversion of a `double` to `float` (binary64 to binary32), as in
`float x = lua_tonumber(L, 2)`. -/
def toFloat : FloatVal → FloatVal
  | .fin q => roundBinary 24 (-126) 127 q
  | x => x

/-- Conversion of a `lua_Integer` to `lua_Number` (binary64), `cast_num` in Lua. -/
def toDouble (i : Int) : FloatVal :=
  roundBinary 53 (-1022) 1023 (i : Rat)

/-- The type `gfx::Color`, a 32-bit RGBA word. -/
abbrev Color := Nat

/-- The type `app::Color`, the application level color of a script value. -/
structure AppColor where
  raw : Nat
deriving DecidableEq, Repr

/-- The enumeration `os::Paint::Style`. -/
inductive Style
  | Fill
  | Stroke
  | StrokeAndFill
deriving DecidableEq, Repr

/-- The attributes of `os::Paint` that the binding reads or writes. -/
structure Paint where
  color : Color
  strokeWidth : FloatVal
  antialias : Bool
  style : Style
deriving DecidableEq

/-- One path construction command of `gfx::Path`. -/
inductive PathCmd
  | moveTo (x y : FloatVal)
  | lineTo (x y : FloatVal)
  | cubicTo (cp1x cp1y cp2x cp2y x y : FloatVal)
  | close
deriving DecidableEq

/-- The type `gfx::Path`: the commands issued since the last reset. -/
abbrev Path := List PathCmd

/-! ## Library objects -/

/-- An `os::Surface`, identified by its handle, with its dimensions. -/
structure Surface where
  id : Nat
  width : Int
  height : Int
deriving DecidableEq, Repr

/-- An `os::Font` handle. -/
structure Font where
  id : Nat
deriving DecidableEq, Repr

/-- A `doc::Palette` handle. -/
structure Palette where
  id : Nat
deriving DecidableEq, Repr

/-- A `doc::Image` with its dimensions. -/
structure Image where
  id : Nat
  width : Int
  height : Int
deriving DecidableEq, Repr

/-- A skin part: its bitmaps, each slot possibly null. -/
structure SkinPart where
  bitmaps : List (Option Surface)
deriving DecidableEq

/-- The method `SkinPart::bitmap(index)`: the bitmap in that slot, null when
the index is out of range or the slot is empty. -/
def SkinPart.bitmap (part : SkinPart) (index : Nat) : Option Surface :=
  match part.bitmaps[index]? with
  | some b => b
  | none => none

/-- The skin theme: `getPartById` resolves a part id to a part or to null. -/
structure SkinTheme where
  getPartById : String → Option SkinPart

/-- A call made to the graphics library, with its arguments. -/
inductive Call
  | surface_save (s : Surface)
  | surface_restore (s : Surface)
  | surface_drawRect (s : Surface) (rc : Rect) (paint : Paint)
  | surface_drawPath (s : Surface) (path : Path) (paint : Paint)
  | surface_drawRgbaSurface (s : Surface) (bmp : Surface) (x y : Int)
  | draw_text (s : Option Surface) (font : Option Font) (text : String)
      (fg bg : Color) (x y : Int)
  | convert_image_to_surface (img : Image) (pal : Palette) (s : Surface)
      (srcX srcY dstX dstY w h : Int)
  | theme_drawRect (s : Surface) (rc : Rect) (part : SkinPart) (drawCenter : Bool)
deriving DecidableEq

/-- The surface a call draws on, if any. -/
def Call.target : Call → Option Surface
  | .surface_save s => some s
  | .surface_restore s => some s
  | .surface_drawRect s _ _ => some s
  | .surface_drawPath s _ _ => some s
  | .surface_drawRgbaSurface s _ _ _ => some s
  | .draw_text s _ _ _ _ _ _ => s
  | .convert_image_to_surface _ _ s _ _ _ _ _ _ => some s
  | .theme_drawRect s _ _ _ => some s

/-- The calls of a trace that draw on surface `s`. -/
def drawsOn (s : Surface) (calls : List Call) : List Call :=
  calls.filter (fun c => decide (c.target = some s))

/-! ## Lua values and the stack API -/

/-- A Lua numeric value: an integer or a float. -/
inductive LuaNum
  | int (i : Int)
  | flt (n : FloatVal)
deriving DecidableEq

/-- A value in a Lua stack slot. A string is the sequence of its characters,
a NUL among them included; `sizeObj` and `colorObj` are the userdata objects
created by `push_obj`. -/
inductive LuaValue
  | nil
  | boolean (b : Bool)
  | integer (i : Int)
  | number (n : FloatVal)
  | string (s : String)
  | table (ref : Nat)
  | userdata (mtname : String) (ref : Nat)
  | sizeObj (sz : Size)
  | colorObj (c : AppColor)
deriving DecidableEq

/-- The stack of a call frame: index 1 is the head of the list. -/
abbrev Stack := List LuaValue

/-- A Lua error raised out of a binding. -/
inductive LuaError
  | badArgument (idx : Nat) (expected : String)
deriving DecidableEq

/-- Equality of results of a fallible computation is decidable. -/
instance instDecidableEqExcept {ε α : Type} [DecidableEq ε] [DecidableEq α] :
    DecidableEq (Except ε α)
  | .ok a, .ok b =>
    if h : a = b then isTrue (by rw [h]) else isFalse (fun h2 => h (Except.ok.inj h2))
  | .error a, .error b =>
    if h : a = b then isTrue (by rw [h]) else isFalse (fun h2 => h (Except.error.inj h2))
  | .ok _, .error _ => isFalse (fun h => Except.noConfusion h)
  | .error _, .ok _ => isFalse (fun h => Except.noConfusion h)

/-- Services of the Lua runtime and of the host application used by the
binding; their code is not in `graphics_context.cpp`. -/
structure Host where
  /-- Lua's `l_strton`: the number a string converts to, if it does. -/
  l_strton : String → Option LuaNum
  /-- Lua's `luaO_tostring`: the text of a number. -/
  tostringNum : LuaNum → String
  /-- The bounds `os::draw_text` returns. -/
  textBounds : Option Font → String → Int → Int → Rect
  /-- The function `get_current_palette()`. -/
  get_current_palette : Palette
  /-- The value of `skin::SkinTheme::instance()`. -/
  theme : Option SkinTheme
  /-- The function `convert_args_into_rect(L, index)`. -/
  convert_args_into_rect : Stack → Nat → Rect
  /-- The function `convert_args_into_point(L, index)`. -/
  convert_args_into_point : Stack → Nat → Point
  /-- The function `convert_args_into_color(L, index)`. -/
  convert_args_into_color : Stack → Nat → AppColor
  /-- The function `may_get_image_from_arg(L, index)`. -/
  may_get_image_from_arg : Stack → Nat → Option Image
  /-- The function `color_utils::color_for_ui`. -/
  color_for_ui : AppColor → Color
  /-- The function `color_utils::color_from_ui`. -/
  color_from_ui : Color → AppColor

/-- The value at a stack index (1-based); `none` is `LUA_TNONE`. -/
def index2value (L : Stack) (idx : Nat) : Option LuaValue :=
  L[idx - 1]?

/-- Conversion of a C `long long` to `int`: two's complement wrap-around. -/
def toInt (i : Int) : Int :=
  (i + 2 ^ 31) % 2 ^ 32 - 2 ^ 31

/-- Lua's float to integer conversion in mode `F2Ieq`: only floats with an
exact integer value inside the `lua_Integer` range convert. -/
def luaV_flttointns : FloatVal → Option Int
  | .fin q => if q.den = 1 ∧ -(2 ^ 63) ≤ q.num ∧ q.num < 2 ^ 63 then some q.num else none
  | .negZero => some 0
  | .inf _ => none
  | .nan => none

/-- Lua's `lua_tointeger`: the integer value of a slot, 0 when it has none. -/
def lua_tointeger (H : Host) (L : Stack) (idx : Nat) : Int :=
  match index2value L idx with
  | some (.integer i) => i
  | some (.number n) => (luaV_flttointns n).getD 0
  | some (.string s) =>
    match H.l_strton s with
    | some (.int i) => i
    | some (.flt n) => (luaV_flttointns n).getD 0
    | none => 0
  | _ => 0

/-- Lua's `lua_tonumber`: the numeric value of a slot, 0 when it has none. -/
def lua_tonumber (H : Host) (L : Stack) (idx : Nat) : FloatVal :=
  match index2value L idx with
  | some (.integer i) => toDouble i
  | some (.number n) => n
  | some (.string s) =>
    match H.l_strton s with
    | some (.int i) => toDouble i
    | some (.flt n) => n
    | none => .fin 0
  | _ => .fin 0

/-- Lua's `lua_toboolean`: false for nil, `false` and an absent slot. -/
def lua_toboolean (L : Stack) (idx : Nat) : Bool :=
  match index2value L idx with
  | none => false
  | some .nil => false
  | some (.boolean b) => b
  | some _ => true

/-- Lua's `lua_tostring`: a pointer to the characters of the string of a
slot, or null; a number is converted to a string in place. -/
def lua_tostring (H : Host) (L : Stack) (idx : Nat) : Option String × Stack :=
  match index2value L idx with
  | some (.string s) => (some s, L)
  | some (.integer i) =>
    (some (H.tostringNum (.int i)), L.set (idx - 1) (.string (H.tostringNum (.int i))))
  | some (.number n) =>
    (some (H.tostringNum (.flt n)), L.set (idx - 1) (.string (H.tostringNum (.flt n))))
  | _ => (none, L)

/-- Lua's `lua_pushvalue`: push a copy of the value at `idx`. -/
def lua_pushvalue (L : Stack) (idx : Nat) : Stack :=
  L ++ [(index2value L idx).getD .nil]

/-- Lua's `lua_pushinteger`. -/
def lua_pushinteger (L : Stack) (i : Int) : Stack :=
  L ++ [.integer i]

/-- Lua's `lua_pushboolean`. -/
def lua_pushboolean (L : Stack) (b : Bool) : Stack :=
  L ++ [.boolean b]

/-- Lua's `lua_pushnumber`. -/
def lua_pushnumber (L : Stack) (n : FloatVal) : Stack :=
  L ++ [.number n]

/-- The implicit conversion of a `const char*` to `std::string`: the
characters before the first NUL. -/
def std_string (text : String) : String :=
  String.mk (text.data.takeWhile (fun c => c.toNat != 0))

/-- The metatable name set by `DEF_MTNAME(GraphicsContext)`. -/
def mtname_GraphicsContext : String := "GraphicsContext"

/-- Modelled from the spec: the helper `get_obj<GraphicsContext>(L, index)` of
`luacpp.h`, which marshals the receiver out of the call frame: the slot must
hold a userdata with the metatable of the class (`luaL_checkudata`),
otherwise a Lua error is raised. -/
def get_obj (L : Stack) (idx : Nat) : Except LuaError Unit :=
  match index2value L idx with
  | some (.userdata mt _) =>
    if mt = mtname_GraphicsContext then .ok ()
    else .error (.badArgument idx mtname_GraphicsContext)
  | _ => .error (.badArgument idx mtname_GraphicsContext)

/-- Modelled from the spec: the helper `push_obj(L, gfx::Size)` of `luacpp.h`,
which marshals a result back to the script: it pushes one new `Size` object
holding the value. -/
def push_obj_Size (L : Stack) (sz : Size) : Stack :=
  L ++ [.sizeObj sz]

/-- Modelled from the spec: the helper `push_obj(L, app::Color)` of `luacpp.h`,
which marshals a result back to the script: it pushes one new `Color` object
holding the value. -/
def push_obj_Color (L : Stack) (c : AppColor) : Stack :=
  L ++ [.colorObj c]

/-- The function `os::draw_text`: one call of the text renderer, returning the
bounds of the text. -/
def draw_text (H : Host) (surface : Option Surface) (font : Option Font)
    (text : String) (fg bg : Color) (x y : Int) : Rect × List Call :=
  (H.textBounds font text x y, [.draw_text surface font text fg bg x y])

/-! ## The class `GraphicsContext` -/

/-- The members of `GraphicsContext`: the surface it draws on (a reference),
the font, the paint and the path. -/
structure GraphicsContext where
  m_surface : Surface
  m_font : Option Font
  m_paint : Paint
  m_path : Path
deriving DecidableEq

/-- The method `GraphicsContext::fillText`. -/
def GraphicsContext.fillText (H : Host) (gc : GraphicsContext) (text : String)
    (x y : Int) : GraphicsContext × List Call :=
  (gc, (draw_text H (some gc.m_surface) gc.m_font text gc.m_paint.color 0 x y).2)

/-- The method `GraphicsContext::measureText`. -/
def GraphicsContext.measureText (H : Host) (gc : GraphicsContext) (text : String) :
    Size × List Call :=
  ((draw_text H none gc.m_font text 0 0 0 0).1.size,
   (draw_text H none gc.m_font text 0 0 0 0).2)

/-- The method `GraphicsContext::drawImage`. -/
def GraphicsContext.drawImage (H : Host) (gc : GraphicsContext) (img : Image)
    (x y : Int) : GraphicsContext × List Call :=
  (gc, [.convert_image_to_surface img H.get_current_palette gc.m_surface
          0 0 x y img.width img.height])

/-- The method `GraphicsContext::drawThemeImage`. -/
def GraphicsContext.drawThemeImage (H : Host) (gc : GraphicsContext)
    (partId : String) (pt : Point) : GraphicsContext × List Call :=
  match H.theme with
  | some theme =>
    match theme.getPartById partId with
    | some part =>
      match part.bitmap 0 with
      | some bmp => (gc, [.surface_drawRgbaSurface gc.m_surface bmp pt.x pt.y])
      | none => (gc, [])
    | none => (gc, [])
  | none => (gc, [])

/-- The method `GraphicsContext::drawThemeRect`. -/
def GraphicsContext.drawThemeRect (H : Host) (gc : GraphicsContext)
    (partId : String) (rc : Rect) : GraphicsContext × List Call :=
  match H.theme with
  | some theme =>
    match theme.getPartById partId with
    | some part =>
      match part.bitmap 0 with
      | some _ => (gc, [.theme_drawRect gc.m_surface rc part true])
      | none => (gc, [])
    | none => (gc, [])
  | none => (gc, [])

/-- The method `GraphicsContext::stroke`. -/
def GraphicsContext.stroke (gc : GraphicsContext) : GraphicsContext × List Call :=
  ({ gc with m_paint := { gc.m_paint with style := .Stroke } },
   [.surface_drawPath gc.m_surface gc.m_path { gc.m_paint with style := .Stroke }])

/-- The method `GraphicsContext::fill`. -/
def GraphicsContext.fill (gc : GraphicsContext) : GraphicsContext × List Call :=
  ({ gc with m_paint := { gc.m_paint with style := .Fill } },
   [.surface_drawPath gc.m_surface gc.m_path { gc.m_paint with style := .Fill }])

/-- Modelled from the spec: the inline method `GraphicsContext::save` of
`graphics_context.h`, a pass-through to the surface. -/
def GraphicsContext.save (gc : GraphicsContext) : GraphicsContext × List Call :=
  (gc, [.surface_save gc.m_surface])

/-- Modelled from the spec: the inline method `GraphicsContext::restore` of
`graphics_context.h`, a pass-through to the surface. -/
def GraphicsContext.restore (gc : GraphicsContext) : GraphicsContext × List Call :=
  (gc, [.surface_restore gc.m_surface])

/-- Modelled from the spec: the inline method `GraphicsContext::strokeRect` of
`graphics_context.h`; it draws the rectangle with the paint in Stroke style,
as `stroke` does for the path. -/
def GraphicsContext.strokeRect (gc : GraphicsContext) (rc : Rect) :
    GraphicsContext × List Call :=
  ({ gc with m_paint := { gc.m_paint with style := .Stroke } },
   [.surface_drawRect gc.m_surface rc { gc.m_paint with style := .Stroke }])

/-- Modelled from the spec: the inline method `GraphicsContext::fillRect` of
`graphics_context.h`; it draws the rectangle with the paint in Fill style,
as `fill` does for the path. -/
def GraphicsContext.fillRect (gc : GraphicsContext) (rc : Rect) :
    GraphicsContext × List Call :=
  ({ gc with m_paint := { gc.m_paint with style := .Fill } },
   [.surface_drawRect gc.m_surface rc { gc.m_paint with style := .Fill }])

/-- Modelled from the spec: the inline method `GraphicsContext::beginPath` of
`graphics_context.h`; it starts a new, empty path. -/
def GraphicsContext.beginPath (gc : GraphicsContext) : GraphicsContext :=
  { gc with m_path := [] }

/-- Modelled from the spec: the inline method `GraphicsContext::closePath` of
`graphics_context.h`; it adds a close command to the path. -/
def GraphicsContext.closePath (gc : GraphicsContext) : GraphicsContext :=
  { gc with m_path := gc.m_path ++ [.close] }

/-- Modelled from the spec: the inline method `GraphicsContext::moveTo` of
`graphics_context.h`; it adds a move command to the path. -/
def GraphicsContext.moveTo (gc : GraphicsContext) (x y : FloatVal) : GraphicsContext :=
  { gc with m_path := gc.m_path ++ [.moveTo x y] }

/-- Modelled from the spec: the inline method `GraphicsContext::lineTo` of
`graphics_context.h`; it adds a line command to the path. -/
def GraphicsContext.lineTo (gc : GraphicsContext) (x y : FloatVal) : GraphicsContext :=
  { gc with m_path := gc.m_path ++ [.lineTo x y] }

/-- Modelled from the spec: the inline method `GraphicsContext::cubicTo` of
`graphics_context.h`; it adds a cubic command to the path. -/
def GraphicsContext.cubicTo (gc : GraphicsContext)
    (cp1x cp1y cp2x cp2y x y : FloatVal) : GraphicsContext :=
  { gc with m_path := gc.m_path ++ [.cubicTo cp1x cp1y cp2x cp2y x y] }

/-- Modelled from the spec: the inline getter `GraphicsContext::width` of
`graphics_context.h`, the width of the surface. -/
def GraphicsContext.width (gc : GraphicsContext) : Int := gc.m_surface.width

/-- Modelled from the spec: the inline getter `GraphicsContext::height` of
`graphics_context.h`, the height of the surface. -/
def GraphicsContext.height (gc : GraphicsContext) : Int := gc.m_surface.height

/-- Modelled from the spec: the inline getter `GraphicsContext::antialias` of
`graphics_context.h`, the antialiasing flag of the paint. -/
def GraphicsContext.antialias (gc : GraphicsContext) : Bool := gc.m_paint.antialias

/-- Modelled from the spec: the inline setter `GraphicsContext::antialias` of
`graphics_context.h`; it sets the antialiasing flag of the paint. -/
def GraphicsContext.set_antialias (gc : GraphicsContext) (value : Bool) : GraphicsContext :=
  { gc with m_paint := { gc.m_paint with antialias := value } }

/-- Modelled from the spec: the inline getter `GraphicsContext::color` of
`graphics_context.h`, the color of the paint. -/
def GraphicsContext.color (gc : GraphicsContext) : Color := gc.m_paint.color

/-- Modelled from the spec: the inline setter `GraphicsContext::color` of
`graphics_context.h`; it sets the color of the paint. -/
def GraphicsContext.set_color (gc : GraphicsContext) (color : Color) : GraphicsContext :=
  { gc with m_paint := { gc.m_paint with color := color } }

/-- Modelled from the spec: the inline getter `GraphicsContext::strokeWidth` of
`graphics_context.h`, the stroke width of the paint. -/
def GraphicsContext.strokeWidth (gc : GraphicsContext) : FloatVal := gc.m_paint.strokeWidth

/-- Modelled from the spec: the inline setter `GraphicsContext::strokeWidth` of
`graphics_context.h`; it sets the stroke width of the paint. -/
def GraphicsContext.set_strokeWidth (gc : GraphicsContext) (value : FloatVal) :
    GraphicsContext :=
  { gc with m_paint := { gc.m_paint with strokeWidth := value } }

/-! ## The bindings -/

/-- What a binding leaves behind when it returns normally: the number of
results it reports, the stack, the context and the library calls it made. -/
structure Outcome where
  nresults : Nat
  stack : Stack
  gc : GraphicsContext
  calls : List Call
deriving DecidableEq

/-- The values a returning binding hands to the script: the top `nresults`
slots of the stack. -/
def Outcome.results (o : Outcome) : List LuaValue :=
  o.stack.drop (o.stack.length - o.nresults)

/-- The binding `GraphicsContext_gc`; the destructor releases the references
the context holds and draws nothing. -/
def GraphicsContext_gc (L : Stack) (gc : GraphicsContext) : Except LuaError Outcome := do
  get_obj L 1
  pure ⟨0, L, gc, []⟩

/-- The binding `GraphicsContext_save`. -/
def GraphicsContext_save (L : Stack) (gc : GraphicsContext) : Except LuaError Outcome := do
  get_obj L 1
  pure ⟨0, L, gc.save.1, gc.save.2⟩

/-- The binding `GraphicsContext_restore`. -/
def GraphicsContext_restore (L : Stack) (gc : GraphicsContext) : Except LuaError Outcome := do
  get_obj L 1
  pure ⟨0, L, gc.restore.1, gc.restore.2⟩

/-- The binding `GraphicsContext_strokeRect`. -/
def GraphicsContext_strokeRect (H : Host) (L : Stack) (gc : GraphicsContext) :
    Except LuaError Outcome := do
  get_obj L 1
  let rc := H.convert_args_into_rect L 2
  pure ⟨0, L, (gc.strokeRect rc).1, (gc.strokeRect rc).2⟩

/-- The binding `GraphicsContext_fillRect`. -/
def GraphicsContext_fillRect (H : Host) (L : Stack) (gc : GraphicsContext) :
    Except LuaError Outcome := do
  get_obj L 1
  let rc := H.convert_args_into_rect L 2
  pure ⟨0, L, (gc.fillRect rc).1, (gc.fillRect rc).2⟩

/-- The binding `GraphicsContext_fillText`. -/
def GraphicsContext_fillText (H : Host) (L : Stack) (gc : GraphicsContext) :
    Except LuaError Outcome := do
  get_obj L 1
  match lua_tostring H L 2 with
  | (some text, L1) =>
    let x := toInt (lua_tointeger H L1 3)
    let y := toInt (lua_tointeger H L1 4)
    pure ⟨0, L1, (gc.fillText H (std_string text) x y).1,
      (gc.fillText H (std_string text) x y).2⟩
  | (none, L1) => pure ⟨0, L1, gc, []⟩

/-- The binding `GraphicsContext_measureText`. -/
def GraphicsContext_measureText (H : Host) (L : Stack) (gc : GraphicsContext) :
    Except LuaError Outcome := do
  get_obj L 1
  match lua_tostring H L 2 with
  | (some text, L1) =>
    pure ⟨1, push_obj_Size L1 (gc.measureText H (std_string text)).1, gc,
      (gc.measureText H (std_string text)).2⟩
  | (none, L1) => pure ⟨0, L1, gc, []⟩

/-- The binding `GraphicsContext_drawImage`. -/
def GraphicsContext_drawImage (H : Host) (L : Stack) (gc : GraphicsContext) :
    Except LuaError Outcome := do
  get_obj L 1
  match H.may_get_image_from_arg L 2 with
  | some img =>
    let x := toInt (lua_tointeger H L 3)
    let y := toInt (lua_tointeger H L 4)
    pure ⟨0, L, (gc.drawImage H img x y).1, (gc.drawImage H img x y).2⟩
  | none => pure ⟨0, L, gc, []⟩

/-- The binding `GraphicsContext_drawThemeImage`. -/
def GraphicsContext_drawThemeImage (H : Host) (L : Stack) (gc : GraphicsContext) :
    Except LuaError Outcome := do
  get_obj L 1
  match lua_tostring H L 2 with
  | (some id, L1) =>
    let pt := H.convert_args_into_point L1 3
    pure ⟨0, L1, (gc.drawThemeImage H (std_string id) pt).1,
      (gc.drawThemeImage H (std_string id) pt).2⟩
  | (none, L1) => pure ⟨0, L1, gc, []⟩

/-- The binding `GraphicsContext_drawThemeRect`. -/
def GraphicsContext_drawThemeRect (H : Host) (L : Stack) (gc : GraphicsContext) :
    Except LuaError Outcome := do
  get_obj L 1
  match lua_tostring H L 2 with
  | (some id, L1) =>
    let rc := H.convert_args_into_rect L1 3
    pure ⟨0, L1, (gc.drawThemeRect H (std_string id) rc).1,
      (gc.drawThemeRect H (std_string id) rc).2⟩
  | (none, L1) => pure ⟨0, L1, gc, []⟩

/-- The binding `GraphicsContext_beginPath`. -/
def GraphicsContext_beginPath (L : Stack) (gc : GraphicsContext) : Except LuaError Outcome := do
  get_obj L 1
  pure ⟨1, lua_pushvalue L 1, gc.beginPath, []⟩

/-- The binding `GraphicsContext_closePath`. -/
def GraphicsContext_closePath (L : Stack) (gc : GraphicsContext) : Except LuaError Outcome := do
  get_obj L 1
  pure ⟨1, lua_pushvalue L 1, gc.closePath, []⟩

/-- The binding `GraphicsContext_moveTo`. -/
def GraphicsContext_moveTo (H : Host) (L : Stack) (gc : GraphicsContext) :
    Except LuaError Outcome := do
  get_obj L 1
  let x := toFloat (lua_tonumber H L 2)
  let y := toFloat (lua_tonumber H L 3)
  pure ⟨1, lua_pushvalue L 1, gc.moveTo x y, []⟩

/-- The binding `GraphicsContext_lineTo`. -/
def GraphicsContext_lineTo (H : Host) (L : Stack) (gc : GraphicsContext) :
    Except LuaError Outcome := do
  get_obj L 1
  let x := toFloat (lua_tonumber H L 2)
  let y := toFloat (lua_tonumber H L 3)
  pure ⟨1, lua_pushvalue L 1, gc.lineTo x y, []⟩

/-- The binding `GraphicsContext_cubicTo`. -/
def GraphicsContext_cubicTo (H : Host) (L : Stack) (gc : GraphicsContext) :
    Except LuaError Outcome := do
  get_obj L 1
  let cp1x := toFloat (lua_tonumber H L 2)
  let cp1y := toFloat (lua_tonumber H L 3)
  let cp2x := toFloat (lua_tonumber H L 4)
  let cp2y := toFloat (lua_tonumber H L 5)
  let x := toFloat (lua_tonumber H L 6)
  let y := toFloat (lua_tonumber H L 7)
  pure ⟨1, lua_pushvalue L 1, gc.cubicTo cp1x cp1y cp2x cp2y x y, []⟩

/-- The binding `GraphicsContext_stroke`. -/
def GraphicsContext_stroke (L : Stack) (gc : GraphicsContext) : Except LuaError Outcome := do
  get_obj L 1
  pure ⟨1, lua_pushvalue L 1, gc.stroke.1, gc.stroke.2⟩

/-- The binding `GraphicsContext_fill`. -/
def GraphicsContext_fill (L : Stack) (gc : GraphicsContext) : Except LuaError Outcome := do
  get_obj L 1
  pure ⟨1, lua_pushvalue L 1, gc.fill.1, gc.fill.2⟩

/-- The binding `GraphicsContext_get_width`. -/
def GraphicsContext_get_width (L : Stack) (gc : GraphicsContext) : Except LuaError Outcome := do
  get_obj L 1
  pure ⟨1, lua_pushinteger L gc.width, gc, []⟩

/-- The binding `GraphicsContext_get_height`. -/
def GraphicsContext_get_height (L : Stack) (gc : GraphicsContext) : Except LuaError Outcome := do
  get_obj L 1
  pure ⟨1, lua_pushinteger L gc.height, gc, []⟩

/-- The binding `GraphicsContext_get_antialias`. -/
def GraphicsContext_get_antialias (L : Stack) (gc : GraphicsContext) :
    Except LuaError Outcome := do
  get_obj L 1
  pure ⟨1, lua_pushboolean L gc.antialias, gc, []⟩

/-- The binding `GraphicsContext_set_antialias`. -/
def GraphicsContext_set_antialias (L : Stack) (gc : GraphicsContext) :
    Except LuaError Outcome := do
  get_obj L 1
  let antialias := lua_toboolean L 2
  pure ⟨1, L, gc.set_antialias antialias, []⟩

/-- The binding `GraphicsContext_get_color`. -/
def GraphicsContext_get_color (H : Host) (L : Stack) (gc : GraphicsContext) :
    Except LuaError Outcome := do
  get_obj L 1
  pure ⟨1, push_obj_Color L (H.color_from_ui gc.color), gc, []⟩

/-- The binding `GraphicsContext_set_color`. -/
def GraphicsContext_set_color (H : Host) (L : Stack) (gc : GraphicsContext) :
    Except LuaError Outcome := do
  get_obj L 1
  let color := H.convert_args_into_color L 2
  pure ⟨1, L, gc.set_color (H.color_for_ui color), []⟩

/-- The binding `GraphicsContext_get_strokeWidth`. -/
def GraphicsContext_get_strokeWidth (L : Stack) (gc : GraphicsContext) :
    Except LuaError Outcome := do
  get_obj L 1
  pure ⟨1, lua_pushnumber L gc.strokeWidth, gc, []⟩

/-- The binding `GraphicsContext_set_strokeWidth`. -/
def GraphicsContext_set_strokeWidth (H : Host) (L : Stack) (gc : GraphicsContext) :
    Except LuaError Outcome := do
  get_obj L 1
  let strokeWidth := toFloat (lua_tonumber H L 2)
  pure ⟨1, L, gc.set_strokeWidth strokeWidth, []⟩

/-! ## Registration tables -/

/-- The adapter functions of the file, named by their C symbol. -/
inductive CFunction
  | GraphicsContext_gc
  | GraphicsContext_save
  | GraphicsContext_restore
  | GraphicsContext_strokeRect
  | GraphicsContext_fillRect
  | GraphicsContext_fillText
  | GraphicsContext_measureText
  | GraphicsContext_drawImage
  | GraphicsContext_drawThemeImage
  | GraphicsContext_drawThemeRect
  | GraphicsContext_beginPath
  | GraphicsContext_closePath
  | GraphicsContext_moveTo
  | GraphicsContext_lineTo
  | GraphicsContext_cubicTo
  | GraphicsContext_stroke
  | GraphicsContext_fill
  | GraphicsContext_get_width
  | GraphicsContext_get_height
  | GraphicsContext_get_antialias
  | GraphicsContext_set_antialias
  | GraphicsContext_get_color
  | GraphicsContext_set_color
  | GraphicsContext_get_strokeWidth
  | GraphicsContext_set_strokeWidth
deriving DecidableEq, Repr

/-- Calling an adapter function: the binding it names. -/
def CFunction.call (H : Host) (L : Stack) (gc : GraphicsContext) :
    CFunction → Except LuaError Outcome
  | .GraphicsContext_gc => app.script.GraphicsContext_gc L gc
  | .GraphicsContext_save => app.script.GraphicsContext_save L gc
  | .GraphicsContext_restore => app.script.GraphicsContext_restore L gc
  | .GraphicsContext_strokeRect => app.script.GraphicsContext_strokeRect H L gc
  | .GraphicsContext_fillRect => app.script.GraphicsContext_fillRect H L gc
  | .GraphicsContext_fillText => app.script.GraphicsContext_fillText H L gc
  | .GraphicsContext_measureText => app.script.GraphicsContext_measureText H L gc
  | .GraphicsContext_drawImage => app.script.GraphicsContext_drawImage H L gc
  | .GraphicsContext_drawThemeImage => app.script.GraphicsContext_drawThemeImage H L gc
  | .GraphicsContext_drawThemeRect => app.script.GraphicsContext_drawThemeRect H L gc
  | .GraphicsContext_beginPath => app.script.GraphicsContext_beginPath L gc
  | .GraphicsContext_closePath => app.script.GraphicsContext_closePath L gc
  | .GraphicsContext_moveTo => app.script.GraphicsContext_moveTo H L gc
  | .GraphicsContext_lineTo => app.script.GraphicsContext_lineTo H L gc
  | .GraphicsContext_cubicTo => app.script.GraphicsContext_cubicTo H L gc
  | .GraphicsContext_stroke => app.script.GraphicsContext_stroke L gc
  | .GraphicsContext_fill => app.script.GraphicsContext_fill L gc
  | .GraphicsContext_get_width => app.script.GraphicsContext_get_width L gc
  | .GraphicsContext_get_height => app.script.GraphicsContext_get_height L gc
  | .GraphicsContext_get_antialias => app.script.GraphicsContext_get_antialias L gc
  | .GraphicsContext_set_antialias => app.script.GraphicsContext_set_antialias L gc
  | .GraphicsContext_get_color => app.script.GraphicsContext_get_color H L gc
  | .GraphicsContext_set_color => app.script.GraphicsContext_set_color H L gc
  | .GraphicsContext_get_strokeWidth => app.script.GraphicsContext_get_strokeWidth L gc
  | .GraphicsContext_set_strokeWidth => app.script.GraphicsContext_set_strokeWidth H L gc

/-- An entry of a method table (`luaL_Reg`); a null name ends the table. -/
structure luaL_Reg where
  name : Option String
  func : Option CFunction
deriving DecidableEq, Repr

/-- An entry of a property table (`Property`); a null name ends the table. -/
structure Property where
  name : Option String
  getter : Option CFunction
  setter : Option CFunction
deriving DecidableEq, Repr

/-- The table `GraphicsContext_methods`. -/
def GraphicsContext_methods : List luaL_Reg :=
  [ ⟨some "__gc", some .GraphicsContext_gc⟩,
    ⟨some "save", some .GraphicsContext_save⟩,
    ⟨some "restore", some .GraphicsContext_restore⟩,
    ⟨some "strokeRect", some .GraphicsContext_strokeRect⟩,
    ⟨some "fillRect", some .GraphicsContext_fillRect⟩,
    ⟨some "fillText", some .GraphicsContext_fillText⟩,
    ⟨some "measureText", some .GraphicsContext_measureText⟩,
    ⟨some "drawImage", some .GraphicsContext_drawImage⟩,
    ⟨some "drawThemeImage", some .GraphicsContext_drawThemeImage⟩,
    ⟨some "drawThemeRect", some .GraphicsContext_drawThemeRect⟩,
    ⟨some "beginPath", some .GraphicsContext_beginPath⟩,
    ⟨some "closePath", some .GraphicsContext_closePath⟩,
    ⟨some "moveTo", some .GraphicsContext_moveTo⟩,
    ⟨some "lineTo", some .GraphicsContext_lineTo⟩,
    ⟨some "cubicTo", some .GraphicsContext_cubicTo⟩,
    ⟨some "stroke", some .GraphicsContext_stroke⟩,
    ⟨some "fill", some .GraphicsContext_fill⟩,
    ⟨none, none⟩ ]

/-- The table `GraphicsContext_properties`. -/
def GraphicsContext_properties : List Property :=
  [ ⟨some "width", some .GraphicsContext_get_width, none⟩,
    ⟨some "height", some .GraphicsContext_get_height, none⟩,
    ⟨some "antialias", some .GraphicsContext_get_antialias, some .GraphicsContext_set_antialias⟩,
    ⟨some "color", some .GraphicsContext_get_color, some .GraphicsContext_set_color⟩,
    ⟨some "strokeWidth", some .GraphicsContext_get_strokeWidth,
      some .GraphicsContext_set_strokeWidth⟩,
    ⟨none, none, none⟩ ]

/-- The methods `REG_CLASS` registers: the entries before the first null
name, each as a name and the function bound to it. -/
def registeredMethods : List luaL_Reg → List (String × Option CFunction)
  | [] => []
  | ⟨none, _⟩ :: _ => []
  | ⟨some name, f⟩ :: rest => (name, f) :: registeredMethods rest

/-- The properties `REG_CLASS_PROPERTIES` registers: the entries before the
first null name, each as name, getter and setter. -/
def registeredProperties :
    List Property → List (String × Option CFunction × Option CFunction)
  | [] => []
  | ⟨none, _, _⟩ :: _ => []
  | ⟨some name, g, s⟩ :: rest => (name, g, s) :: registeredProperties rest

/-- A metamethod is a name that starts with two underscores. -/
def isMetamethod (name : String) : Bool :=
  ['_', '_'].isPrefixOf name.data

/-- The C symbol of an adapter function. -/
def CFunction.symbol : CFunction → String
  | .GraphicsContext_gc => "GraphicsContext_gc"
  | .GraphicsContext_save => "GraphicsContext_save"
  | .GraphicsContext_restore => "GraphicsContext_restore"
  | .GraphicsContext_strokeRect => "GraphicsContext_strokeRect"
  | .GraphicsContext_fillRect => "GraphicsContext_fillRect"
  | .GraphicsContext_fillText => "GraphicsContext_fillText"
  | .GraphicsContext_measureText => "GraphicsContext_measureText"
  | .GraphicsContext_drawImage => "GraphicsContext_drawImage"
  | .GraphicsContext_drawThemeImage => "GraphicsContext_drawThemeImage"
  | .GraphicsContext_drawThemeRect => "GraphicsContext_drawThemeRect"
  | .GraphicsContext_beginPath => "GraphicsContext_beginPath"
  | .GraphicsContext_closePath => "GraphicsContext_closePath"
  | .GraphicsContext_moveTo => "GraphicsContext_moveTo"
  | .GraphicsContext_lineTo => "GraphicsContext_lineTo"
  | .GraphicsContext_cubicTo => "GraphicsContext_cubicTo"
  | .GraphicsContext_stroke => "GraphicsContext_stroke"
  | .GraphicsContext_fill => "GraphicsContext_fill"
  | .GraphicsContext_get_width => "GraphicsContext_get_width"
  | .GraphicsContext_get_height => "GraphicsContext_get_height"
  | .GraphicsContext_get_antialias => "GraphicsContext_get_antialias"
  | .GraphicsContext_set_antialias => "GraphicsContext_set_antialias"
  | .GraphicsContext_get_color => "GraphicsContext_get_color"
  | .GraphicsContext_set_color => "GraphicsContext_set_color"
  | .GraphicsContext_get_strokeWidth => "GraphicsContext_get_strokeWidth"
  | .GraphicsContext_set_strokeWidth => "GraphicsContext_set_strokeWidth"

/-! ## A concrete host and frame, for evaluating the bindings -/

/-- A skin theme with one part `"check"` that has a bitmap and one part
`"empty"` that has none. -/
def demoTheme : SkinTheme where
  getPartById := fun id =>
    if id = "check" then some ⟨[some ⟨7, 8, 8⟩]⟩
    else if id = "empty" then some ⟨[]⟩
    else none

/-- A host in which strings are never numbers, images are the userdata with
metatable `"Image"`, and the argument converters read integers off the stack. -/
def demoHost : Host where
  l_strton := fun _ => none
  tostringNum := fun
    | .int _ => "int"
    | .flt _ => "flt"
  textBounds := fun _ text x y => ⟨x, y, 6 * text.length, 10⟩
  get_current_palette := ⟨1⟩
  theme := some demoTheme
  convert_args_into_rect := fun L i =>
    match L[i - 1]?, L[i]?, L[i + 1]?, L[i + 2]? with
    | some (.integer x), some (.integer y), some (.integer w), some (.integer h) => ⟨x, y, w, h⟩
    | _, _, _, _ => ⟨0, 0, 0, 0⟩
  convert_args_into_point := fun L i =>
    match L[i - 1]?, L[i]? with
    | some (.integer x), some (.integer y) => ⟨x, y⟩
    | _, _ => ⟨0, 0⟩
  convert_args_into_color := fun L i =>
    match L[i - 1]? with
    | some (.colorObj c) => c
    | some (.integer n) => ⟨n.toNat⟩
    | _ => ⟨0⟩
  may_get_image_from_arg := fun L i =>
    match L[i - 1]? with
    | some (.userdata mt ref) => if mt = "Image" then some ⟨ref, 16, 12⟩ else none
    | _ => none
  color_for_ui := fun c => c.raw
  color_from_ui := fun c => ⟨c⟩

/-- The receiver of the example calls. -/
def self : LuaValue := .userdata "GraphicsContext" 0

/-- A context with a 64x48 surface, a font, and a path with one move. -/
def demoGc : GraphicsContext :=
  ⟨⟨1, 64, 48⟩, some ⟨3⟩, ⟨255, .fin 2, true, .Fill⟩, [.moveTo (.fin 1) (.fin 1)]⟩

/-- The same context without a font. -/
def noFontGc : GraphicsContext :=
  { demoGc with m_font := none }

/-- A stack slot is missing when it is absent or holds nil. -/
def missing (L : Stack) (idx : Nat) : Prop :=
  index2value L idx = none ∨ index2value L idx = some .nil

/-- Whether the theme of the host resolves `partId` to a part that has a
bitmap at index 0. -/
def themeHasBitmap (H : Host) (partId : String) : Prop :=
  ∃ theme part bmp, H.theme = some theme ∧ theme.getPartById partId = some part ∧
    part.bitmap 0 = some bmp

/-- The 32-bit `int` range. -/
def inIntRange (i : Int) : Prop :=
  -(2 ^ 31) ≤ i ∧ i < 2 ^ 31

/-! ## Auxiliary facts -/

/-- Once the receiver check succeeds, a binding continues with its body. -/
theorem bind_get_obj {L : Stack} (h : get_obj L 1 = .ok ()) (k : Unit → Except LuaError Outcome) :
    (get_obj L 1 >>= k) = k () := by
  rw [h]; rfl

/-- A failed string conversion leaves the stack as it was. -/
theorem lua_tostring_none {H : Host} {L : Stack} {idx : Nat}
    (h : (lua_tostring H L idx).1 = none) : lua_tostring H L idx = (none, L) := by
  unfold lua_tostring at h ⊢
  split <;> simp_all

/-- A string slot converts to itself and leaves the stack as it was. -/
theorem lua_tostring_string {H : Host} {L : Stack} {idx : Nat} {text : String}
    (h : index2value L idx = some (.string text)) : lua_tostring H L idx = (some text, L) := by
  unfold lua_tostring
  rw [h]

/-- A missing slot reads as the number 0. -/
theorem lua_tonumber_missing {H : Host} {L : Stack} {idx : Nat} (h : missing L idx) :
    lua_tonumber H L idx = .fin 0 := by
  unfold lua_tonumber
  rcases h with h | h <;> rw [h]

/-- A missing slot reads as the integer 0. -/
theorem lua_tointeger_missing {H : Host} {L : Stack} {idx : Nat} (h : missing L idx) :
    lua_tointeger H L idx = 0 := by
  unfold lua_tointeger
  rcases h with h | h <;> rw [h]

/-- A missing slot reads as false. -/
theorem lua_toboolean_missing {L : Stack} {idx : Nat} (h : missing L idx) :
    lua_toboolean L idx = false := by
  unfold lua_toboolean
  rcases h with h | h <;> rw [h]

/-- Positive zero is unchanged by the conversion to float. -/
theorem toFloat_zero : toFloat (.fin 0) = .fin 0 := by decide

/-- A text without a NUL is unchanged by the conversion to `std::string`. -/
theorem std_string_of_no_nul {text : String} (h : ∀ c ∈ text.data, c.toNat ≠ 0) :
    std_string text = text := by
  unfold std_string
  have hl : ∀ l : List Char, (∀ c ∈ l, c.toNat ≠ 0) →
      l.takeWhile (fun c => c.toNat != 0) = l := by
    intro l
    induction l with
    | nil => intro _; rfl
    | cons a t ih =>
      intro hc
      have ha : a.toNat ≠ 0 := hc a (List.mem_cons_self a t)
      have ht : ∀ c ∈ t, c.toNat ≠ 0 := fun c hm => hc c (List.mem_cons_of_mem a hm)
      have hb : (a.toNat != 0) = true := by simpa using ha
      rw [List.takeWhile_cons, hb, ih ht]
      rfl
  rw [hl text.data h]

/-- Zero is unchanged by the conversion to int. -/
theorem toInt_zero : toInt 0 = 0 := by decide

/-- A value inside the int range is unchanged by the conversion to int. -/
theorem toInt_of_inIntRange {i : Int} (h : inIntRange i) : toInt i = i := by
  unfold inIntRange at h
  unfold toInt
  norm_num at h ⊢
  omega

/-- A binding that pushes one value and reports one result reports that value. -/
theorem results_push (n : Nat) (L : Stack) (v : LuaValue) (gc : GraphicsContext)
    (calls : List Call) (h : n = 1) :
    Outcome.results ⟨n, L ++ [v], gc, calls⟩ = [v] := by
  subst h
  simp [Outcome.results]

/-! ## Claims -/

/-- C1: when argument 2 cannot be converted to a string, the bindings
fillText, measureText, drawThemeImage and drawThemeRect return normally with
zero results, leave stack and context as they were and make no library call;
drawImage does the same when argument 2 does not resolve to an image. -/
theorem C1_unusable_argument_is_noop (H : Host) (L : Stack) (gc : GraphicsContext)
    (hself : get_obj L 1 = .ok ()) :
    ((lua_tostring H L 2).1 = none →
      GraphicsContext_fillText H L gc = .ok ⟨0, L, gc, []⟩ ∧
      GraphicsContext_measureText H L gc = .ok ⟨0, L, gc, []⟩ ∧
      GraphicsContext_drawThemeImage H L gc = .ok ⟨0, L, gc, []⟩ ∧
      GraphicsContext_drawThemeRect H L gc = .ok ⟨0, L, gc, []⟩) ∧
    (H.may_get_image_from_arg L 2 = none →
      GraphicsContext_drawImage H L gc = .ok ⟨0, L, gc, []⟩) := by
  refine ⟨fun h => ?_, fun h => ?_⟩
  · have h2 := lua_tostring_none h
    refine ⟨?_, ?_, ?_, ?_⟩
    · unfold GraphicsContext_fillText
      rw [bind_get_obj hself, h2]; rfl
    · unfold GraphicsContext_measureText
      rw [bind_get_obj hself, h2]; rfl
    · unfold GraphicsContext_drawThemeImage
      rw [bind_get_obj hself, h2]; rfl
    · unfold GraphicsContext_drawThemeRect
      rw [bind_get_obj hself, h2]; rfl
  · unfold GraphicsContext_drawImage
    rw [bind_get_obj hself, h]; rfl

/-- C1 at a concrete frame: receiver followed by a table. -/
theorem C1_unusable_argument_is_noop_witness :
    get_obj [self, .table 4] 1 = .ok () ∧
    (lua_tostring demoHost [self, .table 4] 2).1 = none ∧
    demoHost.may_get_image_from_arg [self, .table 4] 2 = none ∧
    GraphicsContext_fillText demoHost [self, .table 4] demoGc
      = .ok ⟨0, [self, .table 4], demoGc, []⟩ ∧
    GraphicsContext_drawImage demoHost [self, .table 4] demoGc
      = .ok ⟨0, [self, .table 4], demoGc, []⟩ :=
  ⟨by decide, by decide, by decide,
   ((C1_unusable_argument_is_noop demoHost [self, .table 4] demoGc (by decide)).1
      (by decide)).1,
   (C1_unusable_argument_is_noop demoHost [self, .table 4] demoGc (by decide)).2
      (by decide)⟩

/-- C2: drawThemeImage and drawThemeRect draw on the surface exactly when the
theme instance exists, resolves the part id to a part, and that part has a
bitmap at index 0; otherwise they make no call at all; the context itself is
never changed and the methods always return. -/
theorem C2_theme_draw_iff_bitmap (H : Host) (gc : GraphicsContext) (partId : String)
    (pt : Point) (rc : Rect) :
    (drawsOn gc.m_surface (gc.drawThemeImage H partId pt).2 ≠ [] ↔ themeHasBitmap H partId) ∧
    (drawsOn gc.m_surface (gc.drawThemeRect H partId rc).2 ≠ [] ↔ themeHasBitmap H partId) ∧
    (¬ themeHasBitmap H partId →
      gc.drawThemeImage H partId pt = (gc, []) ∧ gc.drawThemeRect H partId rc = (gc, [])) ∧
    (∀ theme part bmp, H.theme = some theme → theme.getPartById partId = some part →
      part.bitmap 0 = some bmp →
      gc.drawThemeImage H partId pt
        = (gc, [.surface_drawRgbaSurface gc.m_surface bmp pt.x pt.y]) ∧
      gc.drawThemeRect H partId rc = (gc, [.theme_drawRect gc.m_surface rc part true])) := by
  have hyes : ∀ theme part bmp, H.theme = some theme → theme.getPartById partId = some part →
      part.bitmap 0 = some bmp →
      gc.drawThemeImage H partId pt
        = (gc, [.surface_drawRgbaSurface gc.m_surface bmp pt.x pt.y]) ∧
      gc.drawThemeRect H partId rc = (gc, [.theme_drawRect gc.m_surface rc part true]) := by
    intro theme part bmp ht hp hb
    simp [GraphicsContext.drawThemeImage, GraphicsContext.drawThemeRect, ht, hp, hb]
  have hno : ¬ themeHasBitmap H partId →
      gc.drawThemeImage H partId pt = (gc, []) ∧ gc.drawThemeRect H partId rc = (gc, []) := by
    intro hn
    cases ht : H.theme with
    | none => simp [GraphicsContext.drawThemeImage, GraphicsContext.drawThemeRect, ht]
    | some theme =>
      cases hp : theme.getPartById partId with
      | none => simp [GraphicsContext.drawThemeImage, GraphicsContext.drawThemeRect, ht, hp]
      | some part =>
        cases hb : part.bitmap 0 with
        | none => simp [GraphicsContext.drawThemeImage, GraphicsContext.drawThemeRect, ht, hp, hb]
        | some bmp => exact absurd ⟨theme, part, bmp, ht, hp, hb⟩ hn
  refine ⟨?_, ?_, hno, hyes⟩
  · constructor
    · intro hd
      by_contra hn
      exact hd (by rw [(hno hn).1]; rfl)
    · rintro ⟨theme, part, bmp, ht, hp, hb⟩
      rw [(hyes theme part bmp ht hp hb).1]
      simp [drawsOn, Call.target]
  · constructor
    · intro hd
      by_contra hn
      exact hd (by rw [(hno hn).2]; rfl)
    · rintro ⟨theme, part, bmp, ht, hp, hb⟩
      rw [(hyes theme part bmp ht hp hb).2]
      simp [drawsOn, Call.target]

/-- C3, as stated, fails: with a null font, fillText still calls the text
renderer on the surface and measureText still calls it for measuring, both
with the null font. -/
theorem C3_null_font_still_calls_draw_text :
    noFontGc.m_font = none ∧
    (noFontGc.fillText demoHost "hi" 2 3).2
      = [.draw_text (some noFontGc.m_surface) none "hi" 255 0 2 3] ∧
    drawsOn noFontGc.m_surface (noFontGc.fillText demoHost "hi" 2 3).2 ≠ [] ∧
    (noFontGc.measureText demoHost "hi").2 = [.draw_text none none "hi" 0 0 0 0] := by
  decide

/-- C3, amended: fillText and measureText do not test the font; each makes
exactly one call of the text renderer that carries the font of the context
as it is, null or not: fillText on the surface with the paint color at
(x, y), measureText with a null surface; neither changes the context. -/
theorem C3_font_forwarded_unchecked (H : Host) (gc : GraphicsContext) (text : String)
    (x y : Int) :
    gc.fillText H text x y
      = (gc, [.draw_text (some gc.m_surface) gc.m_font text gc.m_paint.color 0 x y]) ∧
    gc.measureText H text
      = ((H.textBounds gc.m_font text 0 0).size, [.draw_text none gc.m_font text 0 0 0 0]) := by
  exact ⟨rfl, rfl⟩

/-- C4, as stated, fails: moveTo called with no coordinates adds a move to
(0, 0) to the path, and fillText called with a string but no x, y draws the
text on the surface at (0, 0). -/
theorem C4_missing_arguments_are_not_noops :
    GraphicsContext_moveTo demoHost [self] demoGc
      = .ok ⟨1, [self, self],
          { demoGc with m_path := demoGc.m_path ++ [.moveTo (.fin 0) (.fin 0)] }, []⟩ ∧
    demoGc.m_path ++ [PathCmd.moveTo (.fin 0) (.fin 0)] ≠ demoGc.m_path ∧
    GraphicsContext_fillText demoHost [self, .string "hi"] demoGc
      = .ok ⟨0, [self, .string "hi"], demoGc,
          [.draw_text (some demoGc.m_surface) demoGc.m_font "hi" 255 0 0 0]⟩ ∧
    drawsOn demoGc.m_surface
      [Call.draw_text (some demoGc.m_surface) demoGc.m_font "hi" 255 0 0 0] ≠ [] := by
  decide

/-- C4, amended: a missing (absent or nil) argument does not turn the call
into a no-op. It is read as 0 by lua_tonumber and lua_tointeger and as false
by lua_toboolean, and every one of these bindings returns normally after
forwarding the operation with the values read, converted to the C type of
the parameter (float for path coordinates and stroke width, int for text
and image coordinates; both conversions keep 0): moveTo, lineTo and cubicTo
append their command to the path, fillText (given a string, taken up to its
first NUL) and drawImage (given an image) make their library call at the
coordinates read, the setters of antialias and strokeWidth store the value
read, and strokeRect, fillRect and the setter of color forward what the
argument converter returns. -/
theorem C4_missing_arguments_default (H : Host) (L : Stack) (gc : GraphicsContext)
    (hself : get_obj L 1 = .ok ()) :
    (∀ idx, missing L idx →
      toFloat (lua_tonumber H L idx) = .fin 0 ∧ toInt (lua_tointeger H L idx) = 0 ∧
      lua_toboolean L idx = false) ∧
    GraphicsContext_moveTo H L gc
      = .ok ⟨1, lua_pushvalue L 1,
          { gc with m_path := gc.m_path ++
              [.moveTo (toFloat (lua_tonumber H L 2)) (toFloat (lua_tonumber H L 3))] },
          []⟩ ∧
    GraphicsContext_lineTo H L gc
      = .ok ⟨1, lua_pushvalue L 1,
          { gc with m_path := gc.m_path ++
              [.lineTo (toFloat (lua_tonumber H L 2)) (toFloat (lua_tonumber H L 3))] },
          []⟩ ∧
    GraphicsContext_cubicTo H L gc
      = .ok ⟨1, lua_pushvalue L 1,
          { gc with m_path := gc.m_path ++
              [.cubicTo (toFloat (lua_tonumber H L 2)) (toFloat (lua_tonumber H L 3))
                (toFloat (lua_tonumber H L 4)) (toFloat (lua_tonumber H L 5))
                (toFloat (lua_tonumber H L 6)) (toFloat (lua_tonumber H L 7))] },
          []⟩ ∧
    (∀ text, index2value L 2 = some (.string text) →
      GraphicsContext_fillText H L gc
        = .ok ⟨0, L, gc,
            [.draw_text (some gc.m_surface) gc.m_font (std_string text) gc.m_paint.color 0
              (toInt (lua_tointeger H L 3)) (toInt (lua_tointeger H L 4))]⟩) ∧
    (∀ img, H.may_get_image_from_arg L 2 = some img →
      GraphicsContext_drawImage H L gc
        = .ok ⟨0, L, gc,
            [.convert_image_to_surface img H.get_current_palette gc.m_surface 0 0
              (toInt (lua_tointeger H L 3)) (toInt (lua_tointeger H L 4))
              img.width img.height]⟩) ∧
    GraphicsContext_set_antialias L gc
      = .ok ⟨1, L, { gc with m_paint := { gc.m_paint with antialias := lua_toboolean L 2 } }, []⟩ ∧
    GraphicsContext_set_strokeWidth H L gc
      = .ok ⟨1, L,
          { gc with m_paint :=
              { gc.m_paint with strokeWidth := toFloat (lua_tonumber H L 2) } },
          []⟩ ∧
    GraphicsContext_set_color H L gc
      = .ok ⟨1, L,
          { gc with m_paint :=
              { gc.m_paint with color := H.color_for_ui (H.convert_args_into_color L 2) } },
          []⟩ ∧
    GraphicsContext_strokeRect H L gc
      = .ok ⟨0, L, { gc with m_paint := { gc.m_paint with style := .Stroke } },
          [.surface_drawRect gc.m_surface (H.convert_args_into_rect L 2)
            { gc.m_paint with style := .Stroke }]⟩ ∧
    GraphicsContext_fillRect H L gc
      = .ok ⟨0, L, { gc with m_paint := { gc.m_paint with style := .Fill } },
          [.surface_drawRect gc.m_surface (H.convert_args_into_rect L 2)
            { gc.m_paint with style := .Fill }]⟩ := by
  refine ⟨?_, ?_, ?_, ?_, ?_, ?_, ?_, ?_, ?_, ?_, ?_⟩
  · intro idx hm
    refine ⟨?_, ?_, lua_toboolean_missing hm⟩
    · rw [lua_tonumber_missing hm]
      exact toFloat_zero
    · rw [lua_tointeger_missing hm]
      exact toInt_zero
  · unfold GraphicsContext_moveTo
    rw [bind_get_obj hself]; rfl
  · unfold GraphicsContext_lineTo
    rw [bind_get_obj hself]; rfl
  · unfold GraphicsContext_cubicTo
    rw [bind_get_obj hself]; rfl
  · intro text ht
    unfold GraphicsContext_fillText
    rw [bind_get_obj hself, lua_tostring_string ht]; rfl
  · intro img hi
    unfold GraphicsContext_drawImage
    rw [bind_get_obj hself, hi]; rfl
  · unfold GraphicsContext_set_antialias
    rw [bind_get_obj hself]; rfl
  · unfold GraphicsContext_set_strokeWidth
    rw [bind_get_obj hself]; rfl
  · unfold GraphicsContext_set_color
    rw [bind_get_obj hself]; rfl
  · unfold GraphicsContext_strokeRect
    rw [bind_get_obj hself]; rfl
  · unfold GraphicsContext_fillRect
    rw [bind_get_obj hself]; rfl

/-- C4 amended, at the frame that holds only the receiver: moveTo appends a
move to (0, 0). -/
theorem C4_missing_arguments_default_witness :
    get_obj [self] 1 = .ok () ∧
    GraphicsContext_moveTo demoHost [self] demoGc
      = .ok ⟨1, lua_pushvalue [self] 1,
          { demoGc with m_path := demoGc.m_path ++
              [.moveTo (toFloat (lua_tonumber demoHost [self] 2))
                (toFloat (lua_tonumber demoHost [self] 3))] },
          []⟩ ∧
    toFloat (lua_tonumber demoHost [self] 2) = .fin 0 :=
  ⟨by decide,
   (C4_missing_arguments_default demoHost [self] demoGc (by decide)).2.1,
   ((C4_missing_arguments_default demoHost [self] demoGc (by decide)).1 2
      (Or.inl (by decide))).1⟩

/-- C5: the methods registered for scripts, metamethods apart, are exactly
save, restore, strokeRect, fillRect, fillText, measureText, drawImage,
drawThemeImage, drawThemeRect, beginPath, closePath, moveTo, lineTo, cubicTo,
stroke and fill, each once and each bound to the adapter of its name; the
properties are exactly width, height, antialias, color and strokeWidth, the
first two with a getter only and the other three with getter and setter. -/
theorem C5_registered_names :
    (registeredMethods GraphicsContext_methods).filter (fun e => !isMetamethod e.1)
      = [ ("save", some .GraphicsContext_save),
          ("restore", some .GraphicsContext_restore),
          ("strokeRect", some .GraphicsContext_strokeRect),
          ("fillRect", some .GraphicsContext_fillRect),
          ("fillText", some .GraphicsContext_fillText),
          ("measureText", some .GraphicsContext_measureText),
          ("drawImage", some .GraphicsContext_drawImage),
          ("drawThemeImage", some .GraphicsContext_drawThemeImage),
          ("drawThemeRect", some .GraphicsContext_drawThemeRect),
          ("beginPath", some .GraphicsContext_beginPath),
          ("closePath", some .GraphicsContext_closePath),
          ("moveTo", some .GraphicsContext_moveTo),
          ("lineTo", some .GraphicsContext_lineTo),
          ("cubicTo", some .GraphicsContext_cubicTo),
          ("stroke", some .GraphicsContext_stroke),
          ("fill", some .GraphicsContext_fill) ] ∧
    (∀ e ∈ (registeredMethods GraphicsContext_methods).filter (fun e => !isMetamethod e.1),
      e.2.map CFunction.symbol = some ("GraphicsContext_" ++ e.1)) ∧
    ((registeredMethods GraphicsContext_methods).map (fun e => e.1)).Nodup ∧
    registeredProperties GraphicsContext_properties
      = [ ("width", some .GraphicsContext_get_width, none),
          ("height", some .GraphicsContext_get_height, none),
          ("antialias", some .GraphicsContext_get_antialias, some .GraphicsContext_set_antialias),
          ("color", some .GraphicsContext_get_color, some .GraphicsContext_set_color),
          ("strokeWidth", some .GraphicsContext_get_strokeWidth,
            some .GraphicsContext_set_strokeWidth) ] := by
  refine ⟨by decide, by decide, by decide, by decide⟩

/-- C6: fill draws the path of the context with its paint in Fill style and
stroke draws it in Stroke style: the path passed is the path of the context,
the paint passed has the color, stroke width and antialias flag of the paint
before the call, and afterwards the context differs from before at most in
the style of its paint. -/
theorem C6_fill_stroke_frame (gc : GraphicsContext) :
    gc.fill.2 = [.surface_drawPath gc.m_surface gc.m_path
        ⟨gc.m_paint.color, gc.m_paint.strokeWidth, gc.m_paint.antialias, .Fill⟩] ∧
    gc.stroke.2 = [.surface_drawPath gc.m_surface gc.m_path
        ⟨gc.m_paint.color, gc.m_paint.strokeWidth, gc.m_paint.antialias, .Stroke⟩] ∧
    gc.fill.1 = ⟨gc.m_surface, gc.m_font,
        ⟨gc.m_paint.color, gc.m_paint.strokeWidth, gc.m_paint.antialias, .Fill⟩, gc.m_path⟩ ∧
    gc.stroke.1 = ⟨gc.m_surface, gc.m_font,
        ⟨gc.m_paint.color, gc.m_paint.strokeWidth, gc.m_paint.antialias, .Stroke⟩, gc.m_path⟩ := by
  exact ⟨rfl, rfl, rfl, rfl⟩

/-- C7, as stated, fails: for the string made of `a`, a NUL and `b`,
measureText measures only the text `a`, not the string it was given. -/
theorem C7_text_is_cut_at_first_nul :
    GraphicsContext_measureText demoHost [self, .string "a\x00b"] demoGc
      = .ok ⟨1, [self, .string "a\x00b", .sizeObj ⟨6, 10⟩], demoGc,
          [.draw_text none demoGc.m_font "a" 0 0 0 0]⟩ ∧
    (demoHost.textBounds demoGc.m_font "a\x00b" 0 0).size = ⟨18, 10⟩ ∧
    GraphicsContext_measureText demoHost [self, .string "a\x00b"] demoGc
      ≠ .ok ⟨1, [self, .string "a\x00b",
            .sizeObj (demoHost.textBounds demoGc.m_font "a\x00b" 0 0).size], demoGc,
          [.draw_text none demoGc.m_font "a\x00b" 0 0 0 0]⟩ := by
  decide

/-- C7, amended: for every string in argument 2, measureText returns normally
and reports exactly one result, a Size equal to the size of the bounds the
text renderer gives, in the font of the context, for the text up to its
first NUL, which is the whole text when it contains no NUL; its only library
call is a text call with a null surface, so nothing is drawn on the surface
of the context and the context (surface, paint, path) is as before. -/
theorem C7_measureText_result (H : Host) (L : Stack) (gc : GraphicsContext) (text : String)
    (hself : get_obj L 1 = .ok ()) (htext : index2value L 2 = some (.string text)) :
    (∃ o, GraphicsContext_measureText H L gc = .ok o ∧
      o.nresults = 1 ∧
      o.results = [.sizeObj (H.textBounds gc.m_font (std_string text) 0 0).size] ∧
      o.stack = L ++ [.sizeObj (H.textBounds gc.m_font (std_string text) 0 0).size] ∧
      o.calls = [.draw_text none gc.m_font (std_string text) 0 0 0 0] ∧
      drawsOn gc.m_surface o.calls = [] ∧
      o.gc = gc) ∧
    ((∀ c ∈ text.data, c.toNat ≠ 0) → std_string text = text) := by
  refine ⟨⟨⟨1, L ++ [.sizeObj (H.textBounds gc.m_font (std_string text) 0 0).size], gc,
    [.draw_text none gc.m_font (std_string text) 0 0 0 0]⟩, ?_, rfl, ?_, rfl, rfl, ?_, rfl⟩,
    std_string_of_no_nul⟩
  · unfold GraphicsContext_measureText
    rw [bind_get_obj hself, lua_tostring_string htext]; rfl
  · exact results_push 1 L _ gc _ rfl
  · simp [drawsOn, Call.target]

/-- C7 amended, at a concrete frame: the text "hi" measures 12 by 10. -/
theorem C7_measureText_result_witness :
    get_obj [self, .string "hi"] 1 = .ok () ∧
    index2value [self, .string "hi"] 2 = some (.string "hi") ∧
    std_string "hi" = "hi" ∧
    ∃ o, GraphicsContext_measureText demoHost [self, .string "hi"] demoGc = .ok o ∧
      o.nresults = 1 ∧
      o.results = [.sizeObj (demoHost.textBounds demoGc.m_font (std_string "hi") 0 0).size] ∧
      o.stack = [self, .string "hi"]
        ++ [.sizeObj (demoHost.textBounds demoGc.m_font (std_string "hi") 0 0).size] ∧
      o.calls = [.draw_text none demoGc.m_font (std_string "hi") 0 0 0 0] ∧
      drawsOn demoGc.m_surface o.calls = [] ∧
      o.gc = demoGc :=
  ⟨by decide, by decide,
   (C7_measureText_result demoHost [self, .string "hi"] demoGc "hi" (by decide) (by decide)).2
     (by decide),
   (C7_measureText_result demoHost [self, .string "hi"] demoGc "hi" (by decide) (by decide)).1⟩

/-- C8, as stated, fails: for the Lua integer x = 4294967296 the image is
not forwarded with destination x; the conversion to int makes it 0. -/
theorem C8_destination_is_narrowed_to_int :
    GraphicsContext_drawImage demoHost
        [self, .userdata "Image" 5, .integer 4294967296, .integer 3] demoGc
      = .ok ⟨0, [self, .userdata "Image" 5, .integer 4294967296, .integer 3], demoGc,
          [.convert_image_to_surface ⟨5, 16, 12⟩ demoHost.get_current_palette
            demoGc.m_surface 0 0 0 3 16 12]⟩ ∧
    GraphicsContext_drawImage demoHost
        [self, .userdata "Image" 5, .integer 4294967296, .integer 3] demoGc
      ≠ .ok ⟨0, [self, .userdata "Image" 5, .integer 4294967296, .integer 3], demoGc,
          [.convert_image_to_surface ⟨5, 16, 12⟩ demoHost.get_current_palette
            demoGc.m_surface 0 0 4294967296 3 16 12]⟩ := by
  decide

/-- C8, amended: for every resolvable image img, drawImage returns normally
with zero results after exactly one call of the image-to-surface conversion
with the current palette, source origin (0, 0) and extent img.width by
img.height on the surface of the context; the destination coordinate is x
(resp. y) when argument 3 (resp. 4) is an integer within the 32-bit int
range, and 0 when that argument is absent or nil. -/
theorem C8_drawImage_forwarding (H : Host) (L : Stack) (gc : GraphicsContext) (img : Image)
    (hself : get_obj L 1 = .ok ()) (himg : H.may_get_image_from_arg L 2 = some img) :
    ∃ dx dy, GraphicsContext_drawImage H L gc
        = .ok ⟨0, L, gc,
            [.convert_image_to_surface img H.get_current_palette gc.m_surface 0 0 dx dy
              img.width img.height]⟩ ∧
      (∀ x, index2value L 3 = some (.integer x) → inIntRange x → dx = x) ∧
      (∀ y, index2value L 4 = some (.integer y) → inIntRange y → dy = y) ∧
      (missing L 3 → dx = 0) ∧
      (missing L 4 → dy = 0) := by
  refine ⟨toInt (lua_tointeger H L 3), toInt (lua_tointeger H L 4), ?_, ?_, ?_, ?_, ?_⟩
  · unfold GraphicsContext_drawImage
    rw [bind_get_obj hself, himg]; rfl
  · intro x hx hr
    unfold lua_tointeger
    rw [hx]
    exact toInt_of_inIntRange hr
  · intro y hy hr
    unfold lua_tointeger
    rw [hy]
    exact toInt_of_inIntRange hr
  · intro hm
    rw [lua_tointeger_missing hm]
    exact toInt_zero
  · intro hm
    rw [lua_tointeger_missing hm]
    exact toInt_zero

/-- C8 amended, at a concrete frame: image 5 drawn with x = 7 and y absent. -/
theorem C8_drawImage_forwarding_witness :
    get_obj [self, .userdata "Image" 5, .integer 7] 1 = .ok () ∧
    demoHost.may_get_image_from_arg [self, .userdata "Image" 5, .integer 7] 2
      = some ⟨5, 16, 12⟩ ∧
    ∃ dx dy, GraphicsContext_drawImage demoHost [self, .userdata "Image" 5, .integer 7] demoGc
        = .ok ⟨0, [self, .userdata "Image" 5, .integer 7], demoGc,
            [.convert_image_to_surface ⟨5, 16, 12⟩ demoHost.get_current_palette
              demoGc.m_surface 0 0 dx dy (16 : Int) (12 : Int)]⟩ ∧
      (∀ x, index2value [self, .userdata "Image" 5, .integer 7] 3 = some (.integer x) →
        inIntRange x → dx = x) ∧
      (∀ y, index2value [self, .userdata "Image" 5, .integer 7] 4 = some (.integer y) →
        inIntRange y → dy = y) ∧
      (missing [self, .userdata "Image" 5, .integer 7] 3 → dx = 0) ∧
      (missing [self, .userdata "Image" 5, .integer 7] 4 → dy = 0) :=
  ⟨by decide, by decide,
   C8_drawImage_forwarding demoHost [self, .userdata "Image" 5, .integer 7] demoGc ⟨5, 16, 12⟩
     (by decide) (by decide)⟩

/-- C9: called on a receiver, each of beginPath, closePath, moveTo, lineTo,
cubicTo, stroke and fill returns normally for every argument list, reports
exactly one result, and that result is the receiver (the value in slot 1);
each of save, restore, strokeRect, fillRect, fillText, drawImage,
drawThemeImage and drawThemeRect returns normally and reports zero results. -/
theorem C9_result_counts (H : Host) (L : Stack) (gc : GraphicsContext) (recv : LuaValue)
    (hrecv : index2value L 1 = some recv) (hself : get_obj L 1 = .ok ()) :
    (∀ f ∈ [CFunction.GraphicsContext_beginPath, .GraphicsContext_closePath,
          .GraphicsContext_moveTo, .GraphicsContext_lineTo, .GraphicsContext_cubicTo,
          .GraphicsContext_stroke, .GraphicsContext_fill],
      ∃ o, f.call H L gc = .ok o ∧ o.nresults = 1 ∧ o.results = [recv]) ∧
    (∀ f ∈ [CFunction.GraphicsContext_save, .GraphicsContext_restore,
          .GraphicsContext_strokeRect, .GraphicsContext_fillRect,
          .GraphicsContext_fillText, .GraphicsContext_drawImage,
          .GraphicsContext_drawThemeImage, .GraphicsContext_drawThemeRect],
      ∃ o, f.call H L gc = .ok o ∧ o.nresults = 0 ∧ o.results = []) := by
  have hpush : lua_pushvalue L 1 = L ++ [recv] := by
    unfold lua_pushvalue
    rw [hrecv]; rfl
  have hres0 : ∀ (st : Stack) (g : GraphicsContext) (cs : List Call),
      Outcome.results ⟨0, st, g, cs⟩ = [] := by
    intro st g cs
    simp [Outcome.results]
  constructor
  · intro f hf
    simp only [List.mem_cons, List.mem_singleton, List.not_mem_nil, or_false] at hf
    rcases hf with rfl | rfl | rfl | rfl | rfl | rfl | rfl
    · refine ⟨⟨1, L ++ [recv], gc.beginPath, []⟩, ?_, rfl, results_push 1 L _ _ _ rfl⟩
      show GraphicsContext_beginPath L gc = _
      unfold GraphicsContext_beginPath
      rw [bind_get_obj hself, hpush]; rfl
    · refine ⟨⟨1, L ++ [recv], gc.closePath, []⟩, ?_, rfl, results_push 1 L _ _ _ rfl⟩
      show GraphicsContext_closePath L gc = _
      unfold GraphicsContext_closePath
      rw [bind_get_obj hself, hpush]; rfl
    · refine ⟨⟨1, L ++ [recv],
          gc.moveTo (toFloat (lua_tonumber H L 2)) (toFloat (lua_tonumber H L 3)), []⟩,
        ?_, rfl, results_push 1 L _ _ _ rfl⟩
      show GraphicsContext_moveTo H L gc = _
      unfold GraphicsContext_moveTo
      rw [bind_get_obj hself, hpush]; rfl
    · refine ⟨⟨1, L ++ [recv],
          gc.lineTo (toFloat (lua_tonumber H L 2)) (toFloat (lua_tonumber H L 3)), []⟩,
        ?_, rfl, results_push 1 L _ _ _ rfl⟩
      show GraphicsContext_lineTo H L gc = _
      unfold GraphicsContext_lineTo
      rw [bind_get_obj hself, hpush]; rfl
    · refine ⟨⟨1, L ++ [recv],
          gc.cubicTo (toFloat (lua_tonumber H L 2)) (toFloat (lua_tonumber H L 3))
            (toFloat (lua_tonumber H L 4)) (toFloat (lua_tonumber H L 5))
            (toFloat (lua_tonumber H L 6)) (toFloat (lua_tonumber H L 7)), []⟩,
        ?_, rfl, results_push 1 L _ _ _ rfl⟩
      show GraphicsContext_cubicTo H L gc = _
      unfold GraphicsContext_cubicTo
      rw [bind_get_obj hself, hpush]; rfl
    · refine ⟨⟨1, L ++ [recv], gc.stroke.1, gc.stroke.2⟩, ?_, rfl, results_push 1 L _ _ _ rfl⟩
      show GraphicsContext_stroke L gc = _
      unfold GraphicsContext_stroke
      rw [bind_get_obj hself, hpush]; rfl
    · refine ⟨⟨1, L ++ [recv], gc.fill.1, gc.fill.2⟩, ?_, rfl, results_push 1 L _ _ _ rfl⟩
      show GraphicsContext_fill L gc = _
      unfold GraphicsContext_fill
      rw [bind_get_obj hself, hpush]; rfl
  · intro f hf
    simp only [List.mem_cons, List.mem_singleton, List.not_mem_nil, or_false] at hf
    rcases hf with rfl | rfl | rfl | rfl | rfl | rfl | rfl | rfl
    · refine ⟨⟨0, L, gc.save.1, gc.save.2⟩, ?_, rfl, hres0 _ _ _⟩
      show GraphicsContext_save L gc = _
      unfold GraphicsContext_save
      rw [bind_get_obj hself]; rfl
    · refine ⟨⟨0, L, gc.restore.1, gc.restore.2⟩, ?_, rfl, hres0 _ _ _⟩
      show GraphicsContext_restore L gc = _
      unfold GraphicsContext_restore
      rw [bind_get_obj hself]; rfl
    · refine ⟨⟨0, L, (gc.strokeRect (H.convert_args_into_rect L 2)).1,
        (gc.strokeRect (H.convert_args_into_rect L 2)).2⟩, ?_, rfl, hres0 _ _ _⟩
      show GraphicsContext_strokeRect H L gc = _
      unfold GraphicsContext_strokeRect
      rw [bind_get_obj hself]; rfl
    · refine ⟨⟨0, L, (gc.fillRect (H.convert_args_into_rect L 2)).1,
        (gc.fillRect (H.convert_args_into_rect L 2)).2⟩, ?_, rfl, hres0 _ _ _⟩
      show GraphicsContext_fillRect H L gc = _
      unfold GraphicsContext_fillRect
      rw [bind_get_obj hself]; rfl
    · show ∃ o, GraphicsContext_fillText H L gc = .ok o ∧ o.nresults = 0 ∧ o.results = []
      unfold GraphicsContext_fillText
      rw [bind_get_obj hself]
      rcases hts : lua_tostring H L 2 with ⟨_ | text, L1⟩
      · exact ⟨_, rfl, rfl, hres0 _ _ _⟩
      · exact ⟨_, rfl, rfl, hres0 _ _ _⟩
    · show ∃ o, GraphicsContext_drawImage H L gc = .ok o ∧ o.nresults = 0 ∧ o.results = []
      unfold GraphicsContext_drawImage
      rw [bind_get_obj hself]
      cases hi : H.may_get_image_from_arg L 2 with
      | none => exact ⟨_, rfl, rfl, hres0 _ _ _⟩
      | some img => exact ⟨_, rfl, rfl, hres0 _ _ _⟩
    · show ∃ o, GraphicsContext_drawThemeImage H L gc = .ok o ∧ o.nresults = 0 ∧ o.results = []
      unfold GraphicsContext_drawThemeImage
      rw [bind_get_obj hself]
      rcases hts : lua_tostring H L 2 with ⟨_ | text, L1⟩
      · exact ⟨_, rfl, rfl, hres0 _ _ _⟩
      · exact ⟨_, rfl, rfl, hres0 _ _ _⟩
    · show ∃ o, GraphicsContext_drawThemeRect H L gc = .ok o ∧ o.nresults = 0 ∧ o.results = []
      unfold GraphicsContext_drawThemeRect
      rw [bind_get_obj hself]
      rcases hts : lua_tostring H L 2 with ⟨_ | text, L1⟩
      · exact ⟨_, rfl, rfl, hres0 _ _ _⟩
      · exact ⟨_, rfl, rfl, hres0 _ _ _⟩

/-- C9 at a concrete frame: lineTo with a string argument still returns the
receiver, and fillText reports nothing. -/
theorem C9_result_counts_witness :
    index2value [self, .string "a", .integer 2] 1 = some self ∧
    get_obj [self, .string "a", .integer 2] 1 = .ok () ∧
    (∃ o, CFunction.GraphicsContext_lineTo.call demoHost [self, .string "a", .integer 2] demoGc
        = .ok o ∧ o.nresults = 1 ∧ o.results = [self]) ∧
    (∃ o, CFunction.GraphicsContext_fillText.call demoHost [self, .string "a", .integer 2] demoGc
        = .ok o ∧ o.nresults = 0 ∧ o.results = []) :=
  ⟨by decide, by decide,
   (C9_result_counts demoHost [self, .string "a", .integer 2] demoGc self (by decide)
      (by decide)).1 _ (by decide),
   (C9_result_counts demoHost [self, .string "a", .integer 2] demoGc self (by decide)
      (by decide)).2 _ (by decide)⟩

/-- C10: called with the stack [receiver, value], each of the setters of
antialias, color and strokeWidth returns normally reporting 1 result and
leaves the stack exactly [receiver, value], so the one value reported is the
assigned value; each getter (width, height, antialias, color, strokeWidth)
pushes exactly one new value on the stack and reports 1, that value. -/
theorem C10_setter_result_is_argument (H : Host) (recv value : LuaValue) (gc : GraphicsContext)
    (hself : get_obj [recv, value] 1 = .ok ()) :
    (∀ f ∈ [CFunction.GraphicsContext_set_antialias, .GraphicsContext_set_color,
          .GraphicsContext_set_strokeWidth],
      ∃ o, f.call H [recv, value] gc = .ok o ∧ o.nresults = 1 ∧
        o.stack = [recv, value] ∧ o.results = [value]) ∧
    (∀ f ∈ [CFunction.GraphicsContext_get_width, .GraphicsContext_get_height,
          .GraphicsContext_get_antialias, .GraphicsContext_get_color,
          .GraphicsContext_get_strokeWidth],
      ∀ L, get_obj L 1 = .ok () →
        ∃ o v, f.call H L gc = .ok o ∧ o.nresults = 1 ∧
          o.stack = L ++ [v] ∧ o.results = [v] ∧ o.gc = gc) := by
  constructor
  · intro f hf
    simp only [List.mem_cons, List.mem_singleton, List.not_mem_nil, or_false] at hf
    rcases hf with rfl | rfl | rfl
    · refine ⟨⟨1, [recv, value], gc.set_antialias (lua_toboolean [recv, value] 2), []⟩,
        ?_, rfl, rfl, rfl⟩
      show GraphicsContext_set_antialias [recv, value] gc = _
      unfold GraphicsContext_set_antialias
      rw [bind_get_obj hself]; rfl
    · refine ⟨⟨1, [recv, value],
          gc.set_color (H.color_for_ui (H.convert_args_into_color [recv, value] 2)), []⟩,
        ?_, rfl, rfl, rfl⟩
      show GraphicsContext_set_color H [recv, value] gc = _
      unfold GraphicsContext_set_color
      rw [bind_get_obj hself]; rfl
    · refine ⟨⟨1, [recv, value],
          gc.set_strokeWidth (toFloat (lua_tonumber H [recv, value] 2)), []⟩,
        ?_, rfl, rfl, rfl⟩
      show GraphicsContext_set_strokeWidth H [recv, value] gc = _
      unfold GraphicsContext_set_strokeWidth
      rw [bind_get_obj hself]; rfl
  · intro f hf L hL
    simp only [List.mem_cons, List.mem_singleton, List.not_mem_nil, or_false] at hf
    rcases hf with rfl | rfl | rfl | rfl | rfl
    · refine ⟨⟨1, L ++ [.integer gc.width], gc, []⟩, .integer gc.width,
        ?_, rfl, rfl, results_push 1 _ _ _ _ rfl, rfl⟩
      show GraphicsContext_get_width L gc = _
      unfold GraphicsContext_get_width
      rw [bind_get_obj hL]; rfl
    · refine ⟨⟨1, L ++ [.integer gc.height], gc, []⟩, .integer gc.height,
        ?_, rfl, rfl, results_push 1 _ _ _ _ rfl, rfl⟩
      show GraphicsContext_get_height L gc = _
      unfold GraphicsContext_get_height
      rw [bind_get_obj hL]; rfl
    · refine ⟨⟨1, L ++ [.boolean gc.antialias], gc, []⟩, .boolean gc.antialias,
        ?_, rfl, rfl, results_push 1 _ _ _ _ rfl, rfl⟩
      show GraphicsContext_get_antialias L gc = _
      unfold GraphicsContext_get_antialias
      rw [bind_get_obj hL]; rfl
    · refine ⟨⟨1, L ++ [.colorObj (H.color_from_ui gc.color)], gc, []⟩,
        .colorObj (H.color_from_ui gc.color), ?_, rfl, rfl, results_push 1 _ _ _ _ rfl, rfl⟩
      show GraphicsContext_get_color H L gc = _
      unfold GraphicsContext_get_color
      rw [bind_get_obj hL]; rfl
    · refine ⟨⟨1, L ++ [.number gc.strokeWidth], gc, []⟩, .number gc.strokeWidth,
        ?_, rfl, rfl, results_push 1 _ _ _ _ rfl, rfl⟩
      show GraphicsContext_get_strokeWidth L gc = _
      unfold GraphicsContext_get_strokeWidth
      rw [bind_get_obj hL]; rfl

/-- C10 at a concrete frame: assigning `false` to antialias reports `false`. -/
theorem C10_setter_result_is_argument_witness :
    get_obj [self, .boolean false] 1 = .ok () ∧
    (∃ o, CFunction.GraphicsContext_set_antialias.call demoHost [self, .boolean false] demoGc
        = .ok o ∧ o.nresults = 1 ∧ o.stack = [self, .boolean false] ∧
        o.results = [.boolean false]) :=
  ⟨by decide,
   (C10_setter_result_is_argument demoHost self (.boolean false) demoGc (by decide)).1 _
      (by decide)⟩

end app.script
